import Mathlib

/-!
Verification of the voucher-tracker reconciliation core.

Shallow embedding of the Python sources:
  * `utils/helpers.py` — uptime/limit parsing and the shared expiry decision.
  * `services/database_service.py` — profile cache, voucher ledger, billing
    recorder (`record_voucher_activation`), connection pool bookkeeping.
  * `services/monitoring_service.py` — `_handle_voucher_activation`,
    `_maybe_update_usage`, `check_expired_users`.

Python exceptions are modelled with `Except String`; Python `int(...)` is
modelled by `pyIntList?` (sign + decimal digits, `none` = `ValueError`);
timestamps are modelled as integer seconds.
-/

namespace VoucherTracker

/-- Numeric value of a list of decimal digit characters. -/
def decValue (cs : List Char) : Nat :=
  cs.foldl (fun a c => a * 10 + (c.toNat - 48)) 0

/-- Model of Python `int(s)` on a character list: optional sign followed by
decimal digits; `none` models `ValueError`. -/
def pyIntList? : List Char → Option Int
  | [] => none
  | c :: rest =>
    if c = '-' then
      if !rest.isEmpty && rest.all Char.isDigit then some (-(decValue rest : Int)) else none
    else if c = '+' then
      if !rest.isEmpty && rest.all Char.isDigit then some ((decValue rest : Int)) else none
    else if (c :: rest).all Char.isDigit then some ((decValue (c :: rest) : Int)) else none

/-- Seconds multiplier of a unit character inside `parse_uptime_to_seconds`
(`d`/`h`/`m`/`s`), `none` for any other character. -/
def charSecs (c : Char) : Option Int :=
  if c = 'd' then some (24 * 60 * 60)
  else if c = 'h' then some (60 * 60)
  else if c = 'm' then some 60
  else if c = 's' then some 1
  else none

/-- One iteration of the character loop in `parse_uptime_to_seconds`
(helpers.py lines 70-83): digits accumulate, a unit character converts the
accumulator via `int(...)` (which could raise) and resets it, any other
character just resets a non-empty accumulator. -/
def puStep (acc : Int × List Char) (c : Char) : Except String (Int × List Char) :=
  if c.isDigit then Except.ok (acc.1, acc.2 ++ [c])
  else if acc.2 = [] then Except.ok acc
  else
    match charSecs c with
    | some u =>
      match pyIntList? acc.2 with
      | some n => Except.ok (acc.1 + n * u, [])
      | none => Except.error "ValueError"
    | none => Except.ok (acc.1, [])

/-- The character loop of `parse_uptime_to_seconds`, propagating exceptions. -/
def puLoop : Int × List Char → List Char → Except String (Int × List Char)
  | acc, [] => Except.ok acc
  | acc, c :: cs =>
    match puStep acc c with
    | Except.ok acc2 => puLoop acc2 cs
    | Except.error e => Except.error e

/-- `parse_uptime_to_seconds` (helpers.py lines 53-85): empty or `"0s"` gives 0;
a bare integer is returned as-is (`ValueError` silently ignored); otherwise the
character loop runs, and any leftover accumulator at the end is discarded. -/
def parse_uptime_to_seconds (s : String) : Except String Int :=
  if s = "" || s = "0s" then Except.ok 0
  else
    match pyIntList? s.data with
    | some n => Except.ok n
    | none =>
      match puLoop (0, []) s.data with
      | Except.ok acc => Except.ok acc.1
      | Except.error e => Except.error e

/-- Exception-free value computed by the loop step (defined only to state that
`puStep` never actually raises). -/
def puStepVal (acc : Int × List Char) (c : Char) : Int × List Char :=
  if c.isDigit then (acc.1, acc.2 ++ [c])
  else if acc.2 = [] then acc
  else
    match charSecs c with
    | some u => (acc.1 + (decValue acc.2 : Int) * u, [])
    | none => (acc.1, [])

/-- Exception-free value of the whole loop. -/
def puLoopVal : Int × List Char → List Char → Int × List Char
  | acc, [] => acc
  | acc, c :: cs => puLoopVal (puStepVal acc c) cs

/-- Total value of `parse_uptime_to_seconds` (the function never raises). -/
def puVal (s : String) : Int :=
  if s = "" || s = "0s" then 0
  else
    match pyIntList? s.data with
    | some n => n
    | none => (puLoopVal (0, []) s.data).1

/-- `check_uptime_limit` (helpers.py lines 88-109): empty limit or empty
current uptime give `false`; both strings go through
`parse_uptime_to_seconds`; a zero limit means never-expires; otherwise
expired iff current ≥ limit; any exception yields `false`. -/
def check_uptime_limit (current_uptime uptime_limit : String) : Bool :=
  if uptime_limit = "" || current_uptime = "" then false
  else
    match parse_uptime_to_seconds current_uptime, parse_uptime_to_seconds uptime_limit with
    | Except.ok cur, Except.ok lim => if lim = 0 then false else decide (cur ≥ lim)
    | _, _ => false

/-- Python `s.split(sep)` on character lists (keeps empty segments). -/
def splitCh (sep : Char) : List Char → List (List Char)
  | [] => [[]]
  | c :: cs =>
    let r := splitCh sep cs
    if c = sep then [] :: r
    else
      match r with
      | [] => [[c]]
      | h :: t => (c :: h) :: t

/-- `uptime_limit_to_seconds` (helpers.py lines 34-51): a string containing
`d` has all `d`s removed and is fed to `int(...)` (uncaught `ValueError`!),
then multiplied by 86400; a string containing `:` is split and, when it has
exactly three fields, each field goes through `int(...)` (uncaught);
otherwise `int(...)` with `ValueError` caught to 0. -/
def uptime_limit_to_seconds (s : String) : Except String Int :=
  if s = "" then Except.ok 0
  else if s.data.contains 'd' then
    match pyIntList? (s.data.filter (fun c => !(c = 'd'))) with
    | some n => Except.ok (n * 24 * 3600)
    | none => Except.error "ValueError"
  else if s.data.contains ':' then
    match splitCh ':' s.data with
    | [p0, p1, p2] =>
      match pyIntList? p0, pyIntList? p1, pyIntList? p2 with
      | some a, some b, some c => Except.ok (a * 3600 + b * 60 + c)
      | _, _, _ => Except.error "ValueError"
    | _ => Except.ok 0
  else
    match pyIntList? s.data with
    | some n => Except.ok n
    | none => Except.ok 0

/-- Helper for substring tests: does `sub` occur at the front of the list? -/
def leadsWith : List Char → List Char → Bool
  | [], _ => true
  | _ :: _, [] => false
  | a :: as, b :: bs => a = b && leadsWith as bs

/-- Helper for substring tests: does `sub` occur anywhere in the list? -/
def hasSub (sub : List Char) : List Char → Bool
  | [] => leadsWith sub []
  | c :: rest => leadsWith sub (c :: rest) || hasSub sub rest

/-- Python `sub in s` on strings (substring containment). -/
def strContains (sub s : String) : Bool := hasSub sub.data s.data

/-- The columns of a `vouchers` row that the reconciliation core mutates,
for one fixed voucher code. -/
structure VoucherRow where
  is_used : Bool
  activated_at : Option Int
  is_expired : Bool
  profile_name : String
  deriving DecidableEq

/-- `mark_voucher_used` (database_service.py lines 424-429):
`UPDATE vouchers SET is_used=TRUE, activated_at=CURRENT_TIMESTAMP` —
unconditionally sets the used flag and overwrites the activation time with
the current timestamp. -/
def mark_voucher_used (now : Int) (r : VoucherRow) : VoucherRow :=
  { r with is_used := true, activated_at := some now }

/-- The columns of an `all_users` row the core reads/mutates, for one
fixed username. -/
structure UserRow where
  uptime_limit : String
  is_expired : Bool
  is_active : Bool
  deriving DecidableEq

/-- The `pricing_rates` table as the dictionary `get_pricing_rates` returns
(`none` = the rate row is absent). -/
structure PricingRates where
  day : Option Int
  week : Option Int
  month : Option Int
  deriving DecidableEq

/-- A `bandwidth_profiles` row (models/schemas.py `Profile`). -/
structure Profile where
  name : String
  rate_limit : String
  description : String
  price : Int
  time_limit : String
  data_limit : String
  validity_period : Int
  uptime_limit : String
  deriving DecidableEq

/-- `profile_info.get("price", 1000) if profile_info else 1000`
(monitoring_service.py line 322). -/
def profile_price : Option Profile → Int
  | some p => p.price
  | none => 1000

/-- The amount cascade of `record_voucher_activation` (database_service.py
lines 601-609): `"1d" in uptime_limit or uptime_limit == "24h"` → day rate,
`"7d" in uptime_limit` → week rate, `"30d" in uptime_limit` → month rate,
else day rate; each `rates.get(k, default)` with defaults 1000/6000/25000. -/
def sale_amount (rates : PricingRates) (uptime_limit : String) : Int :=
  if strContains "1d" uptime_limit || uptime_limit = "24h" then rates.day.getD 1000
  else if strContains "7d" uptime_limit then rates.week.getD 6000
  else if strContains "30d" uptime_limit then rates.month.getD 25000
  else rates.day.getD 1000

/-- The persistent state relevant to billing one fixed code: the voucher row
(if any), the `all_users` row (if any), the row of `bandwidth_profiles` for
the voucher's profile (if any), the pricing rates, and the list of amounts
of the SALE transactions recorded for this code (append-only). -/
structure BillingState where
  voucher : Option VoucherRow
  user : Option UserRow
  profile : Option Profile
  rates : PricingRates
  sales : List Int
  deriving DecidableEq

/-- `record_voucher_activation` (database_service.py lines 572-618): ignore
uptimes ≤ 1; return if the user row is absent; return if a SALE transaction
already exists for the code; otherwise compute the amount from the user's
uptime limit, mark the voucher used, and append one SALE transaction. -/
def record_voucher_activation (now uptime_seconds : Int) (s : BillingState) : BillingState :=
  if uptime_seconds ≤ 1 then s
  else
    match s.user with
    | none => s
    | some u =>
      if s.sales ≠ [] then s
      else
        { s with
          voucher := s.voucher.map (mark_voucher_used now)
          sales := s.sales ++ [sale_amount s.rates u.uptime_limit] }

/-- `_handle_voucher_activation` (monitoring_service.py lines 305-365):
return if the voucher row is absent or already used; price is the voucher's
profile price (default 1000); under the billing lock, if a SALE already
exists just mark the voucher used, else mark it used and append one SALE
transaction with that price. -/
def handle_voucher_activation (now : Int) (s : BillingState) : BillingState :=
  match s.voucher with
  | none => s
  | some v =>
    if v.is_used then s
    else
      if s.sales ≠ [] then
        { s with voucher := s.voucher.map (mark_voucher_used now) }
      else
        { s with
          voucher := s.voucher.map (mark_voucher_used now)
          sales := s.sales ++ [profile_price s.profile] }

/-- One invocation of either activation-recording operation. -/
inductive BillingOp
  | record (now uptime_seconds : Int)
  | handle (now : Int)
  deriving DecidableEq

/-- Apply one activation-recording invocation to the billing state. -/
def applyOp (s : BillingState) : BillingOp → BillingState
  | .record now upt => record_voucher_activation now upt s
  | .handle now => handle_voucher_activation now s

/-- Apply a sequence of invocations in order. -/
def applyOps (s : BillingState) (ops : List BillingOp) : BillingState :=
  ops.foldl applyOp s

/-- The side conditions the claim puts on each invocation:
`record_voucher_activation` is called with `uptime_seconds > 1`
(user/voucher presence is part of the state hypotheses). -/
def BillingOp.valid : BillingOp → Bool
  | .record _ upt => decide (1 < upt)
  | .handle _ => true

/-- "Billing has happened": exactly one SALE transaction, the user row is
still present, and the voucher row is present and marked used. -/
def BillingDone (s : BillingState) : Prop :=
  s.sales.length = 1 ∧ s.user.isSome = true ∧
    ∃ v, s.voucher = some v ∧ v.is_used = true

/-- One entry of the usage-throttle cache
(`{ "bytes": int, "ts": datetime }`). -/
structure UsageEntry where
  bytes : Int
  ts : Int
  deriving DecidableEq

/-- Constructor default `usage_update_min_delta = 1024 * 10`
(monitoring_service.py line 29). -/
def usage_update_min_delta : Int := 1024 * 10

/-- Constructor default `usage_update_max_age = 300`
(monitoring_service.py line 30). -/
def usage_update_max_age : Int := 300

/-- The decision and cache-update core of `_maybe_update_usage`
(monitoring_service.py lines 385-437): no cache entry → persist and set the
baseline; counter reset (total < previous) → persist; otherwise persist iff
the byte delta reaches `min_delta` or the age reaches `max_age`; the cache
baseline is written (to the current total and time) exactly on a persist. -/
def maybe_update_usage (min_delta max_age : Int) (cache : Option UsageEntry)
    (total now : Int) : Bool × Option UsageEntry :=
  match cache with
  | none => (true, some ⟨total, now⟩)
  | some e =>
    let should_update : Bool :=
      if total < e.bytes then true
      else decide (total - e.bytes ≥ min_delta) || decide (now - e.ts ≥ max_age)
    if should_update then (true, some ⟨total, now⟩) else (false, some e)

/-- The `shouldPersist` condition in the spec's words (for comparison with
the decision computed by `maybe_update_usage`). -/
def shouldPersistSpec (min_delta max_age : Int) (cache : Option UsageEntry)
    (total now : Int) : Prop :=
  match cache with
  | none => True
  | some e => total < e.bytes ∨ total - e.bytes ≥ min_delta ∨ now - e.ts ≥ max_age

/-- Possible outcomes of `mikrotik.remove_active_user`: a boolean return or a
raised exception. -/
inductive RemovalOutcome
  | success
  | failed
  | raised
  deriving DecidableEq

/-- The device call, as an exception-throwing action. -/
def remove_active_user : RemovalOutcome → Except Unit Bool
  | .success => Except.ok true
  | .failed => Except.ok false
  | .raised => Except.error ()

/-- The rows `check_expired_users` mutates for one username: the `all_users`
row and the voucher row (if any). -/
structure ExpiryState where
  user : UserRow
  voucher : Option VoucherRow
  deriving DecidableEq

/-- Processing of a single not-yet-expired row by `check_expired_users`
(monitoring_service.py lines 468-518): the stored limit defaults to `"0s"`
when falsy; when `check_uptime_limit` judges the row expired, the device
removal is attempted if the user is active (its outcome — including a raised
exception — is caught and ignored), the `all_users` row gets
`is_expired = TRUE, is_active = FALSE`, and a matching not-yet-expired
voucher gets `is_expired = TRUE`. -/
def process_expiry_row (current_uptime : String) (active : Bool)
    (outcome : RemovalOutcome) (s : ExpiryState) : ExpiryState :=
  let limit := if s.user.uptime_limit = "" then "0s" else s.user.uptime_limit
  if check_uptime_limit current_uptime limit then
    let _removal : Except Unit Bool :=
      if active then remove_active_user outcome else Except.ok false
    let u2 := { s.user with is_expired := true, is_active := false }
    let v2 := match s.voucher with
      | some v => if v.is_expired then some v else some { v with is_expired := true }
      | none => none
    { user := u2, voucher := v2 }
  else s

/-- Bookkeeping state of the connection pool of `DatabaseService`
(database_service.py lines 21-58): `idle` = connections sitting in
`_connection_pool`, `in_use` = connections handed out and not yet returned. -/
structure PoolState where
  idle : Nat
  in_use : Nat
  deriving DecidableEq

/-- `self._max_pool_size = 5` (database_service.py line 25). -/
def max_pool_size : Nat := 5

/-- Pool operations: entering `get_connection` (acquire) and leaving it
(release, with the health of the returned connection). -/
inductive PoolOp
  | acquire
  | release (healthy : Bool)
  deriving DecidableEq

/-- `get_connection` bookkeeping: acquire pops an idle connection if any,
otherwise `_create_connection()` makes a new one unconditionally; release
returns the connection to the pool only when the pool holds fewer than
`max_pool_size` and the connection is healthy (`conn.closed == 0`),
otherwise closes it. A release with nothing outstanding is a no-op. -/
def poolStep (s : PoolState) : PoolOp → PoolState
  | .acquire =>
    if 0 < s.idle then { idle := s.idle - 1, in_use := s.in_use + 1 }
    else { s with in_use := s.in_use + 1 }
  | .release healthy =>
    if s.in_use = 0 then s
    else if s.idle < max_pool_size ∧ healthy = true then
      { idle := s.idle + 1, in_use := s.in_use - 1 }
    else { s with in_use := s.in_use - 1 }

/-- Number of simultaneously open store connections. -/
def openConns (s : PoolState) : Nat := s.idle + s.in_use

/-- Initial pool state of `DatabaseService.__init__`: empty pool. -/
def poolInit : PoolState := ⟨0, 0⟩

/-- Run a sequence of acquire/release operations. -/
def poolRun (s : PoolState) (ops : List PoolOp) : PoolState :=
  ops.foldl poolStep s

/-- Python `str.lower()` / SQL `LOWER` (ASCII case folding, applied
character by character). -/
def strLower (s : String) : String := ⟨s.data.map Char.toLower⟩

/-- `cache_key = f"profile_{profile_name.lower()}"`
(database_service.py lines 300 and 356). -/
def cacheKey (name : String) : String := "profile_" ++ strLower name

/-- `SELECT * FROM bandwidth_profiles WHERE LOWER(name)=LOWER(%s)` with
`fetch_one`: the first row whose name matches case-insensitively. -/
def store_get_profile (store : List Profile) (name : String) : Option Profile :=
  store.find? (fun q => strLower q.name == strLower name)

/-- The `INSERT ... ON CONFLICT (name) DO UPDATE` of `add_profile`
(database_service.py lines 329-342): update every row with exactly this
name, else append the new row. -/
def store_upsert_profile (store : List Profile) (p : Profile) : List Profile :=
  if store.any (fun q => q.name == p.name) then
    store.map (fun q => if q.name == p.name then p else q)
  else store ++ [p]

/-- The profile-relevant state of `DatabaseService`: the
`bandwidth_profiles` table, the profile cache (association list keyed by
`cacheKey`), and the last cache-cleanup time. -/
structure DBService where
  store : List Profile
  cache : List (String × Profile)
  last_cleanup : Int
  deriving DecidableEq

/-- `self._cache_ttl = 300` (database_service.py line 285). -/
def cache_ttl : Int := 300

/-- `_clean_cache_if_needed` (database_service.py lines 288-294): clear the
whole cache when more than the TTL elapsed since the last cleanup. -/
def clean_cache_if_needed (now : Int) (db : DBService) : DBService :=
  if cache_ttl < now - db.last_cleanup then
    { db with cache := [], last_cleanup := now }
  else db

/-- `get_profile` (database_service.py lines 296-315): lazy cleanup, then
cache hit wins; on a miss query the store case-insensitively and populate
the cache. -/
def get_profile (now : Int) (db : DBService) (name : String) :
    Option Profile × DBService :=
  let db1 := clean_cache_if_needed now db
  match db1.cache.lookup (cacheKey name) with
  | some p => (some p, db1)
  | none =>
    match store_get_profile db1.store name with
    | some r => (some r, { db1 with cache := (cacheKey name, r) :: db1.cache })
    | none => (none, db1)

/-- `add_profile` (database_service.py lines 326-362): upsert the row in the
store, then evict the profile's cache entry. -/
def add_profile (db : DBService) (p : Profile) : DBService :=
  { db with
    store := store_upsert_profile db.store p
    cache := db.cache.filter (fun kv => !(kv.1 == cacheKey p.name)) }

/-- Concrete fresh voucher row used in witnesses. -/
def exVoucher : VoucherRow :=
  { is_used := false, activated_at := none, is_expired := false, profile_name := "VIP" }

/-- Concrete user row used in witnesses. -/
def exUser : UserRow := { uptime_limit := "1d", is_expired := false, is_active := true }

/-- Concrete pricing-rates table used in witnesses. -/
def exRates : PricingRates := { day := some 1000, week := some 6000, month := some 25000 }

/-- Concrete profile row used in witnesses: its price (5000) differs from
the day rate (1000). -/
def exProfile : Profile :=
  { name := "VIP", rate_limit := "5M/5M", description := "vip plan", price := 5000,
    time_limit := "24h", data_limit := "Unlimited", validity_period := 24,
    uptime_limit := "1d" }

/-- Concrete fresh billing state used in witnesses: voucher and user rows
present, voucher unused, no SALE transactions yet. -/
def exBilling : BillingState :=
  { voucher := some exVoucher, user := some exUser, profile := some exProfile,
    rates := exRates, sales := [] }

/-- Concrete invocation sequence used in witnesses. -/
def exOps : List BillingOp :=
  [BillingOp.record 5 10, BillingOp.handle 6, BillingOp.record 7 20]

/-- Concrete expiry-check state used in witnesses: a user past its 7-day
limit, with a matching not-yet-expired voucher. -/
def exExpiry : ExpiryState :=
  { user := { uptime_limit := "7d", is_expired := false, is_active := true },
    voucher := some { is_used := true, activated_at := some 0, is_expired := false,
                      profile_name := "VIP" } }

/-- Concrete stored profile (old values) used in the cache-freshness witness. -/
def exOldProfile : Profile :=
  { name := "Foo", rate_limit := "1M/1M", description := "old", price := 700,
    time_limit := "24h", data_limit := "Unlimited", validity_period := 24,
    uptime_limit := "1d" }

/-- Concrete replacement profile (same name, new values) used in the
cache-freshness witness. -/
def exNewProfile : Profile := { exOldProfile with description := "new", price := 900 }

/-- Concrete database state used in the cache-freshness witness: the old row
is in the store and still cached, and the TTL has not elapsed. -/
def exDB : DBService :=
  { store := [exOldProfile], cache := [(cacheKey "foo", exOldProfile)], last_cleanup := 0 }

/- ----------------------------------------------------------------
   Theorems
   ---------------------------------------------------------------- -/

theorem pyIntList?_digits (cs : List Char) (hne : cs ≠ [])
    (hd : cs.all Char.isDigit = true) :
    pyIntList? cs = some ((decValue cs : Nat) : Int) := by
  cases cs with
  | nil => exact absurd rfl hne
  | cons c rest =>
    have hc : c.isDigit = true := by
      simpa using (List.all_eq_true.mp hd c (by simp))
    have h1 : ¬(c = '-') := by
      intro h
      rw [h] at hc
      exact absurd hc (by decide)
    have h2 : ¬(c = '+') := by
      intro h
      rw [h] at hc
      exact absurd hc (by decide)
    simp only [pyIntList?, if_neg h1, if_neg h2, if_pos hd]

theorem puStep_ok (acc : Int × List Char) (c : Char)
    (h : acc.2.all Char.isDigit = true) :
    puStep acc c = Except.ok (puStepVal acc c) ∧
      (puStepVal acc c).2.all Char.isDigit = true := by
  unfold puStep puStepVal
  by_cases hdig : c.isDigit = true
  · simp [hdig, List.all_append, h]
  · have hdig' : c.isDigit = false := by
      cases hcd : c.isDigit
      · rfl
      · exact absurd hcd hdig
    simp only [hdig', Bool.false_eq_true, if_false]
    by_cases hemp : acc.2 = []
    · simp [hemp]
    · simp only [hemp, if_false]
      cases hcs : charSecs c with
      | none => simp
      | some u =>
        rw [pyIntList?_digits acc.2 hemp h]
        simp

theorem puLoop_ok (cs : List Char) (acc : Int × List Char)
    (h : acc.2.all Char.isDigit = true) :
    puLoop acc cs = Except.ok (puLoopVal acc cs) := by
  induction cs generalizing acc with
  | nil => rfl
  | cons c rest ih =>
    obtain ⟨h1, h2⟩ := puStep_ok acc c h
    unfold puLoop puLoopVal
    rw [h1]
    exact ih (puStepVal acc c) h2

/-- `parse_uptime_to_seconds` never raises: it always returns `puVal`. -/
theorem parse_uptime_to_seconds_ok (s : String) :
    parse_uptime_to_seconds s = Except.ok (puVal s) := by
  unfold parse_uptime_to_seconds puVal
  by_cases h0 : (s = "" || s = "0s") = true
  · simp [h0]
  · simp only [h0, Bool.false_eq_true, if_false]
    cases hp : pyIntList? s.data with
    | some n => simp
    | none =>
      rw [puLoop_ok s.data (0, []) (by simp)]

/-- The expiry decision, rewritten through the total parse value: `false` when
either input string is empty, `false` when the limit parses to zero, else
current ≥ limit. -/
theorem check_uptime_limit_eq (cur lim : String) :
    check_uptime_limit cur lim =
      if cur = "" ∨ lim = "" then false
      else if puVal lim = 0 then false
      else decide (puVal cur ≥ puVal lim) := by
  unfold check_uptime_limit
  rw [parse_uptime_to_seconds_ok cur, parse_uptime_to_seconds_ok lim]
  by_cases h1 : lim = ""
  · simp [h1]
  · by_cases h2 : cur = ""
    · simp [h1, h2]
    · simp [h1, h2]

/-- C2 (counterexample): inside `check_uptime_limit` the stored limit is
converted with `parse_uptime_to_seconds`, which maps `"24:00:00"` to 0 (not
86400), so a current uptime of 25 hours against limit `"24:00:00"` is judged
NOT expired, contrary to the claim. -/
theorem C2_hhmmss_counterexample :
    parse_uptime_to_seconds "24:00:00" = Except.ok 0 ∧
    check_uptime_limit "25h" "24:00:00" = false :=
  ⟨rfl, rfl⟩

/-- C2 (amended): the conversion applied inside `check_uptime_limit` is
`parse_uptime_to_seconds`, which discards the colon-separated fields of an
`HH:MM:SS` limit and yields 0, so such a limit is treated as never-expiring:
25 hours against `"24:00:00"` is judged not expired. The standalone
`uptime_limit_to_seconds` helper does convert `"24:00:00"` to
24*3600 = 86400 (and `"7d"` to 604800, a bare `"3600"` to 3600), but it is
not the function `check_uptime_limit` calls; a device-format limit such as
`"24h"` does expire a 25-hour uptime. -/
theorem C2_limit_conversion_in_check :
    parse_uptime_to_seconds "24:00:00" = Except.ok 0 ∧
    check_uptime_limit "25h" "24:00:00" = false ∧
    uptime_limit_to_seconds "24:00:00" = Except.ok 86400 ∧
    uptime_limit_to_seconds "7d" = Except.ok 604800 ∧
    uptime_limit_to_seconds "3600" = Except.ok 3600 ∧
    check_uptime_limit "25h" "24h" = true :=
  ⟨rfl, rfl, rfl, rfl, rfl, rfl⟩

/-- C7 (counterexample): `uptime_limit_to_seconds` is not exception-free —
on the malformed input `"ad"` it strips the `d` and calls `int("a")`, which
raises `ValueError` (uncaught in that branch). -/
theorem C7_limit_parser_raises :
    uptime_limit_to_seconds "ad" = Except.error "ValueError" :=
  rfl

/-- C7 (amended): `parse_uptime_to_seconds` always returns an integer and
never raises (malformed strings such as `"bogus"` yield 0), but
`uptime_limit_to_seconds` can raise: its `d`-branch and `HH:MM:SS`-branch
call `int(...)` outside any try/except, so `"ad"` raises `ValueError`; only
its bare-integer branch catches `ValueError` and degrades to 0
(`"bogus"` yields 0 there). -/
theorem C7_parser_totality :
    (∀ s : String, parse_uptime_to_seconds s = Except.ok (puVal s))
    ∧ parse_uptime_to_seconds "bogus" = Except.ok 0
    ∧ uptime_limit_to_seconds "bogus" = Except.ok 0
    ∧ uptime_limit_to_seconds "ad" = Except.error "ValueError"
    ∧ uptime_limit_to_seconds "a:b:c" = Except.error "ValueError" :=
  ⟨parse_uptime_to_seconds_ok, rfl, rfl, rfl, rfl⟩

/-- C10 (counterexample): the claim "otherwise the result is true exactly when
currentSeconds >= limitSeconds" fails when the current-uptime string is empty
and the limit parses negative: `check_uptime_limit "" "-5"` returns `false`
although the limit parses to -5 ≠ 0 and current (0 seconds) ≥ -5. -/
theorem C10_empty_current_counterexample :
    check_uptime_limit "" "-5" = false ∧ puVal "-5" ≠ 0 ∧ puVal "" ≥ puVal "-5" := by
  refine ⟨rfl, by decide, by decide⟩

/-- C10 (amended): a limit parsing to 0 seconds always yields not-expired; an
empty current-uptime or limit string also always yields not-expired (this
extra clause is observable only for limits parsing negative); in every other
case the decision is exactly currentSeconds ≥ limitSeconds. The claim's
examples hold: 8d vs 7d expired, 6d vs 7d not expired, anything vs "0" not
expired. -/
theorem C10_expiry_decision :
    (∀ cur lim : String, check_uptime_limit cur lim =
      if cur = "" ∨ lim = "" then false
      else if puVal lim = 0 then false
      else decide (puVal cur ≥ puVal lim))
    ∧ (∀ cur : String, check_uptime_limit cur "0" = false)
    ∧ check_uptime_limit "8d" "7d" = true
    ∧ check_uptime_limit "6d" "7d" = false := by
  refine ⟨check_uptime_limit_eq, ?_, rfl, rfl⟩
  intro cur
  rw [check_uptime_limit_eq]
  by_cases h : cur = ""
  · simp [h]
  · simp [h, show puVal "0" = 0 from rfl]

/-- C5 (counterexample): a second `mark_voucher_used` at a later timestamp is
not a no-op — it moves `activated_at` from 0 to 1. -/
theorem C5_second_call_moves_activation :
    mark_voucher_used 1 (mark_voucher_used 0 exVoucher) ≠
      mark_voucher_used 0 exVoucher := by
  decide

/-- C5 (amended): `mark_voucher_used` always sets the used flag and
overwrites the activation time with the current timestamp; a second call is
a no-op on the used flag, and on the whole row only when it happens at the
same timestamp — otherwise it resets `activated_at` to the second call's
time. -/
theorem C5_mark_voucher_used_second_call (t1 t2 : Int) (r : VoucherRow) :
    mark_voucher_used t2 (mark_voucher_used t1 r) =
      { mark_voucher_used t1 r with activated_at := some t2 }
    ∧ (mark_voucher_used t2 (mark_voucher_used t1 r)).is_used = true
    ∧ mark_voucher_used t1 (mark_voucher_used t1 r) = mark_voucher_used t1 r :=
  ⟨rfl, rfl, rfl⟩

/-- C4: the persist decision of `_maybe_update_usage` is true iff there is no
cache entry, the counter reset (total < previous), the byte delta reached
`min_delta`, or the age reached `max_age`; the cached baseline is set to the
current total and time exactly when the decision is true, and the defaults
are 10 KiB and 300 s. -/
theorem C4_usage_throttle (min_delta max_age total now : Int)
    (cache : Option UsageEntry) :
    ((maybe_update_usage min_delta max_age cache total now).1 = true ↔
      shouldPersistSpec min_delta max_age cache total now)
    ∧ (maybe_update_usage min_delta max_age cache total now).2 =
        (if (maybe_update_usage min_delta max_age cache total now).1 = true
         then some ⟨total, now⟩ else cache)
    ∧ usage_update_min_delta = 10240
    ∧ usage_update_max_age = 300 := by
  refine ⟨?_, ?_, rfl, rfl⟩
  · cases cache with
    | none => simp [maybe_update_usage, shouldPersistSpec]
    | some e =>
      by_cases hlt : total < e.bytes
      · simp [maybe_update_usage, shouldPersistSpec, hlt]
      · simp [maybe_update_usage, shouldPersistSpec, hlt]
        by_cases hor : min_delta ≤ total - e.bytes ∨ max_age ≤ now - e.ts
        · rw [if_pos hor]
          exact ⟨fun _ => hor, fun _ => rfl⟩
        · rw [if_neg hor]
          simp [hor]
  · cases cache with
    | none => simp [maybe_update_usage]
    | some e =>
      by_cases hlt : total < e.bytes
      · simp [maybe_update_usage, hlt]
      · by_cases hd : total - e.bytes ≥ min_delta
        · simp [maybe_update_usage, hlt, hd]
        · by_cases ha : now - e.ts ≥ max_age
          · simp [maybe_update_usage, hlt, hd, ha]
          · simp [maybe_update_usage, hlt, hd, ha]

/-- C8 (counterexample): six back-to-back acquisitions from the initial
empty pool leave six connections open — more than the configured maximum of
five; no acquire blocks. -/
theorem C8_open_connections_exceed_cap :
    openConns (poolRun poolInit (List.replicate 6 PoolOp.acquire)) = 6 ∧
    max_pool_size < openConns (poolRun poolInit (List.replicate 6 PoolOp.acquire)) := by
  decide

/-- C8 (amended): the pool bounds only the number of IDLE connections kept in
`_connection_pool` — after any sequence of acquires and releases at most
`max_pool_size` connections sit in the pool — while an acquire on an empty
pool always creates a new connection without blocking, so the number of
simultaneously open connections is unbounded (n acquires open n
connections). -/
theorem C8_idle_cap_only :
    (∀ ops : List PoolOp, (poolRun poolInit ops).idle ≤ max_pool_size)
    ∧ (∀ n : Nat, openConns (poolRun poolInit (List.replicate n PoolOp.acquire)) = n) := by
  constructor
  · have hstep : ∀ (s : PoolState) (op : PoolOp),
        s.idle ≤ max_pool_size → (poolStep s op).idle ≤ max_pool_size := by
      intro s op h
      cases op with
      | acquire =>
        by_cases h0 : 0 < s.idle
        · simp [poolStep, h0]; omega
        · simp [poolStep, h0]; omega
      | release healthy =>
        by_cases h0 : s.in_use = 0
        · simpa [poolStep, h0] using h
        · by_cases h1 : s.idle < max_pool_size ∧ healthy = true
          · simp [poolStep, h0, h1]; omega
          · simp [poolStep, h0, h1]; omega
    have hrun : ∀ (ops : List PoolOp) (s : PoolState),
        s.idle ≤ max_pool_size → (poolRun s ops).idle ≤ max_pool_size := by
      intro ops
      induction ops with
      | nil => intro s h; exact h
      | cons op rest ih =>
        intro s h
        exact ih (poolStep s op) (hstep s op h)
    intro ops
    exact hrun ops poolInit (by simp [poolInit])
  · have hrun : ∀ (n : Nat) (s : PoolState), s.idle = 0 →
        poolRun s (List.replicate n PoolOp.acquire) = ⟨0, s.in_use + n⟩ := by
      intro n
      induction n with
      | zero => intro s h; cases s; simp_all [poolRun, List.replicate]
      | succ m ih =>
        intro s h
        have hstep : poolStep s PoolOp.acquire = ⟨0, s.in_use + 1⟩ := by
          simp [poolStep, h]
        have : poolRun s (List.replicate (m + 1) PoolOp.acquire) =
            poolRun (poolStep s PoolOp.acquire) (List.replicate m PoolOp.acquire) := rfl
        rw [this, hstep, ih ⟨0, s.in_use + 1⟩ rfl]
        show (⟨0, s.in_use + 1 + m⟩ : PoolState) = ⟨0, s.in_use + (m + 1)⟩
        simp only [PoolState.mk.injEq, true_and]
        omega
    intro n
    rw [hrun n poolInit rfl]
    simp [openConns, poolInit]

theorem applyOp_done_fix (s : BillingState) (op : BillingOp)
    (h : BillingDone s) : applyOp s op = s := by
  obtain ⟨hlen, huser, v, hv, hused⟩ := h
  cases op with
  | record now upt =>
    show record_voucher_activation now upt s = s
    unfold record_voucher_activation
    by_cases h1 : upt ≤ 1
    · rw [if_pos h1]
    · rw [if_neg h1]
      cases hu : s.user with
      | none => rfl
      | some u =>
        have hne : s.sales ≠ [] := by
          intro he
          rw [he] at hlen
          exact absurd hlen (by simp)
        simp [hne]
  | handle now =>
    show handle_voucher_activation now s = s
    unfold handle_voucher_activation
    rw [hv]
    simp [hused]

theorem applyOps_done_fix (ops : List BillingOp) (s : BillingState)
    (h : BillingDone s) : applyOps s ops = s := by
  induction ops with
  | nil => rfl
  | cons op rest ih =>
    show applyOps (applyOp s op) rest = s
    rw [applyOp_done_fix s op h]
    exact ih

theorem fresh_step_done (s : BillingState) (v : VoucherRow) (u : UserRow)
    (op : BillingOp) (hv : s.voucher = some v) (hvu : v.is_used = false)
    (hu : s.user = some u) (hs : s.sales = []) (hvalid : op.valid = true) :
    BillingDone (applyOp s op) := by
  cases op with
  | record now upt =>
    have h1 : ¬(upt ≤ 1) := by
      have := of_decide_eq_true hvalid
      omega
    show BillingDone (record_voucher_activation now upt s)
    unfold record_voucher_activation
    rw [if_neg h1, hu]
    simp [hs, hv, BillingDone, mark_voucher_used]
  | handle now =>
    show BillingDone (handle_voucher_activation now s)
    unfold handle_voucher_activation
    rw [hv]
    simp [hvu, hs, hv, hu, BillingDone, mark_voucher_used]

/-- C1: starting from a fresh state for a code — voucher row present and
unused, `all_users` row present, no SALE transaction yet — any non-empty
sequence of activation-recording invocations (`record_voucher_activation`
with `uptime_seconds > 1`, or `_handle_voucher_activation`) leaves exactly
one SALE transaction for the code and the voucher marked used. -/
theorem C1_idempotent_billing (s : BillingState) (v : VoucherRow) (u : UserRow)
    (ops : List BillingOp)
    (hv : s.voucher = some v) (hvu : v.is_used = false)
    (hu : s.user = some u) (hs : s.sales = [])
    (hne : ops ≠ []) (hvalid : ∀ op ∈ ops, op.valid = true) :
    (applyOps s ops).sales.length = 1
    ∧ ∃ v2, (applyOps s ops).voucher = some v2 ∧ v2.is_used = true := by
  cases ops with
  | nil => exact absurd rfl hne
  | cons op rest =>
    have hdone : BillingDone (applyOp s op) :=
      fresh_step_done s v u op hv hvu hu hs (hvalid op (by simp))
    have hsteps : applyOps s (op :: rest) = applyOps (applyOp s op) rest := rfl
    rw [hsteps, applyOps_done_fix rest (applyOp s op) hdone]
    obtain ⟨hlen, _, v2, hv2, hused⟩ := hdone
    exact ⟨hlen, v2, hv2, hused⟩

/-- C1 witness: the fresh state `exBilling` and the concrete sequence
`exOps` (a record call with uptime 10, a handle call, a record call with
uptime 20) end with exactly one SALE and a used voucher. -/
theorem C1_idempotent_billing_witness :
    exBilling.voucher = some exVoucher ∧ exVoucher.is_used = false
    ∧ exBilling.user = some exUser ∧ exBilling.sales = []
    ∧ exOps ≠ [] ∧ (∀ op ∈ exOps, op.valid = true)
    ∧ ((applyOps exBilling exOps).sales.length = 1
       ∧ ∃ v2, (applyOps exBilling exOps).voucher = some v2 ∧ v2.is_used = true) :=
  ⟨rfl, rfl, rfl, rfl, by decide, by decide,
    C1_idempotent_billing exBilling exVoucher exUser exOps rfl rfl rfl rfl
      (by decide) (by decide)⟩

/-- C3: whenever the expiry check judges a row past its limit, the user row
is flagged expired and inactive and a matching not-yet-expired voucher is
flagged expired, for every outcome of the device-session removal (success,
false return, or raised exception) and whether or not the user is active on
the device; an already-expired voucher is left untouched. -/
theorem C3_expiry_flag_updates (current_uptime : String) (active : Bool)
    (outcome : RemovalOutcome) (s : ExpiryState)
    (h : check_uptime_limit current_uptime
      (if s.user.uptime_limit = "" then "0s" else s.user.uptime_limit) = true) :
    (process_expiry_row current_uptime active outcome s).user.is_expired = true
    ∧ (process_expiry_row current_uptime active outcome s).user.is_active = false
    ∧ (∀ v, s.voucher = some v → v.is_expired = false →
        (process_expiry_row current_uptime active outcome s).voucher =
          some { v with is_expired := true })
    ∧ (∀ v, s.voucher = some v → v.is_expired = true →
        (process_expiry_row current_uptime active outcome s).voucher = some v)
    ∧ (s.voucher = none →
        (process_expiry_row current_uptime active outcome s).voucher = none) := by
  refine ⟨?_, ?_, ?_, ?_, ?_⟩
  · simp [process_expiry_row, h]
  · simp [process_expiry_row, h]
  · intro v hv hvexp
    simp [process_expiry_row, h, hv, hvexp]
  · intro v hv hvexp
    simp [process_expiry_row, h, hv, hvexp]
  · intro hnone
    simp [process_expiry_row, h, hnone]

/-- C3 witness: the concrete state `exExpiry` (7-day limit, device uptime
8 days, removal raising an exception) gets both flags set and the voucher
flagged expired. -/
theorem C3_expiry_flag_updates_witness :
    check_uptime_limit "8d"
      (if exExpiry.user.uptime_limit = "" then "0s" else exExpiry.user.uptime_limit) = true
    ∧ ((process_expiry_row "8d" true RemovalOutcome.raised exExpiry).user.is_expired = true
       ∧ (process_expiry_row "8d" true RemovalOutcome.raised exExpiry).user.is_active = false
       ∧ (∀ v, exExpiry.voucher = some v → v.is_expired = false →
           (process_expiry_row "8d" true RemovalOutcome.raised exExpiry).voucher =
             some { v with is_expired := true })
       ∧ (∀ v, exExpiry.voucher = some v → v.is_expired = true →
           (process_expiry_row "8d" true RemovalOutcome.raised exExpiry).voucher = some v)
       ∧ (exExpiry.voucher = none →
           (process_expiry_row "8d" true RemovalOutcome.raised exExpiry).voucher = none)) :=
  ⟨by decide, C3_expiry_flag_updates "8d" true RemovalOutcome.raised exExpiry (by decide)⟩

/-- C6 (counterexample): an activation recorded by
`_handle_voucher_activation` bills the voucher profile's price (5000 in
`exBilling`), not the pricing-rates classification of the uptime limit
(`"1d"` → day rate 1000), so the claim's amount rule does not hold for every
activation that results in a SALE transaction. -/
theorem C6_handle_bills_profile_price :
    (handle_voucher_activation 0 exBilling).sales = [5000]
    ∧ sale_amount exBilling.rates exUser.uptime_limit = 1000 := by
  decide

/-- C6 (amended): only `record_voucher_activation` computes the SALE amount
from the pricing-rates classification of the user's uptime limit — day rate
when it contains "1d" or equals "24h", else week rate when it contains "7d",
else month rate when it contains "30d", else day rate (defaults
1000/6000/25000 when the rate row is absent); `_handle_voucher_activation`
instead bills the voucher profile's price (1000 when the profile row is
absent). -/
theorem C6_sale_amount_classification (s : BillingState) (now upt : Int)
    (usr : UserRow) (v : VoucherRow)
    (huser : s.user = some usr) (hsales : s.sales = []) (hupt : 1 < upt)
    (hv : s.voucher = some v) (hvu : v.is_used = false) :
    (record_voucher_activation now upt s).sales = [sale_amount s.rates usr.uptime_limit]
    ∧ (handle_voucher_activation now s).sales = [profile_price s.profile]
    ∧ (∀ r ul, strContains "1d" ul = true ∨ ul = "24h" →
        sale_amount r ul = r.day.getD 1000)
    ∧ (∀ r ul, strContains "1d" ul = false → ul ≠ "24h" →
        strContains "7d" ul = true → sale_amount r ul = r.week.getD 6000)
    ∧ (∀ r ul, strContains "1d" ul = false → ul ≠ "24h" →
        strContains "7d" ul = false → strContains "30d" ul = true →
        sale_amount r ul = r.month.getD 25000)
    ∧ (∀ r ul, strContains "1d" ul = false → ul ≠ "24h" →
        strContains "7d" ul = false → strContains "30d" ul = false →
        sale_amount r ul = r.day.getD 1000) := by
  have h1 : ¬(upt ≤ 1) := by omega
  refine ⟨?_, ?_, ?_, ?_, ?_, ?_⟩
  · unfold record_voucher_activation
    rw [if_neg h1, huser]
    simp [hsales]
  · unfold handle_voucher_activation
    rw [hv]
    simp [hvu, hsales]
  · intro r ul hcase
    unfold sale_amount
    rcases hcase with hc | hc
    · simp [hc]
    · simp [hc]
  · intro r ul h1d h24 h7
    unfold sale_amount
    simp [h1d, h24, h7]
  · intro r ul h1d h24 h7 h30
    unfold sale_amount
    simp [h1d, h24, h7, h30]
  · intro r ul h1d h24 h7 h30
    unfold sale_amount
    simp [h1d, h24, h7, h30]

/-- C6 witness: the amended claim instantiated at the fresh state
`exBilling` (user uptime limit `"1d"`, profile price 5000, day rate 1000). -/
theorem C6_sale_amount_classification_witness :
    exBilling.user = some exUser ∧ exBilling.sales = [] ∧ (1 : Int) < 10
    ∧ exBilling.voucher = some exVoucher ∧ exVoucher.is_used = false
    ∧ ((record_voucher_activation 3 10 exBilling).sales =
        [sale_amount exBilling.rates exUser.uptime_limit]
       ∧ (handle_voucher_activation 3 exBilling).sales = [profile_price exBilling.profile]
       ∧ (∀ r ul, strContains "1d" ul = true ∨ ul = "24h" →
           sale_amount r ul = r.day.getD 1000)
       ∧ (∀ r ul, strContains "1d" ul = false → ul ≠ "24h" →
           strContains "7d" ul = true → sale_amount r ul = r.week.getD 6000)
       ∧ (∀ r ul, strContains "1d" ul = false → ul ≠ "24h" →
           strContains "7d" ul = false → strContains "30d" ul = true →
           sale_amount r ul = r.month.getD 25000)
       ∧ (∀ r ul, strContains "1d" ul = false → ul ≠ "24h" →
           strContains "7d" ul = false → strContains "30d" ul = false →
           sale_amount r ul = r.day.getD 1000)) :=
  ⟨rfl, rfl, by decide, rfl, rfl,
    C6_sale_amount_classification exBilling 3 10 exUser exVoucher rfl rfl (by decide) rfl rfl⟩

theorem lookup_filter_out (cache : List (String × Profile)) (k : String) :
    (cache.filter (fun kv => !(kv.1 == k))).lookup k = none := by
  induction cache with
  | nil => rfl
  | cons kv rest ih =>
    by_cases h : kv.1 = k
    · simp [List.filter, h, ih]
    · have hb : (kv.1 == k) = false := beq_eq_false_iff_ne.mpr h
      have hb2 : (k == kv.1) = false := beq_eq_false_iff_ne.mpr (Ne.symm h)
      simp [List.filter, hb, List.lookup, hb2, ih]

theorem find_map_upsert (p : Profile) (n : String)
    (hn : strLower n = strLower p.name) (l : List Profile)
    (hciu : ∀ q ∈ l, strLower q.name = strLower p.name → q.name = p.name)
    (hex : ∃ q ∈ l, q.name = p.name) :
    (l.map (fun q => if q.name == p.name then p else q)).find?
      (fun q => strLower q.name == strLower n) = some p := by
  induction l with
  | nil =>
    obtain ⟨q, hq, _⟩ := hex
    exact absurd hq (by simp)
  | cons q rest ih =>
    by_cases hq : q.name = p.name
    · have hbeq : (q.name == p.name) = true := beq_iff_eq.mpr hq
      have hpred : (strLower p.name == strLower n) = true := beq_iff_eq.mpr hn.symm
      simp [List.find?, hbeq, hpred]
    · have hbeq : (q.name == p.name) = false := beq_eq_false_iff_ne.mpr hq
      have hpred : (strLower q.name == strLower n) = false := by
        rw [beq_eq_false_iff_ne]
        intro he
        exact hq (hciu q (by simp) (he.trans hn))
      have hex2 : ∃ x ∈ rest, x.name = p.name := by
        obtain ⟨x, hx, hxe⟩ := hex
        rcases List.mem_cons.mp hx with hhead | htail
        · exact absurd (hhead ▸ hxe) hq
        · exact ⟨x, htail, hxe⟩
      simp only [List.map_cons, hbeq, Bool.false_eq_true, if_false]
      rw [List.find?_cons_of_neg _ (by simp [hpred])]
      exact ih (fun x hx he => hciu x (by simp [hx]) he) hex2

theorem find_append_single (p : Profile) (n : String)
    (hn : strLower n = strLower p.name) (l : List Profile)
    (hall : ∀ q ∈ l, (strLower q.name == strLower n) = false) :
    (l ++ [p]).find? (fun q => strLower q.name == strLower n) = some p := by
  induction l with
  | nil =>
    have hpred : (strLower p.name == strLower n) = true := beq_iff_eq.mpr hn.symm
    simp [List.find?, hpred]
  | cons q rest ih =>
    have hq := hall q (by simp)
    simp only [List.cons_append]
    rw [List.find?_cons_of_neg _ (by simp [hq])]
    exact ih (fun x hx => hall x (by simp [hx]))

theorem store_get_after_upsert (store : List Profile) (p : Profile) (n : String)
    (hciu : ∀ q ∈ store, strLower q.name = strLower p.name → q.name = p.name)
    (hn : strLower n = strLower p.name) :
    store_get_profile (store_upsert_profile store p) n = some p := by
  unfold store_get_profile store_upsert_profile
  by_cases hany : store.any (fun q => q.name == p.name) = true
  · rw [if_pos hany]
    have hex : ∃ q ∈ store, q.name = p.name := by
      obtain ⟨q, hq, hbeq⟩ := List.any_eq_true.mp hany
      exact ⟨q, hq, beq_iff_eq.mp hbeq⟩
    exact find_map_upsert p n hn store hciu hex
  · rw [if_neg hany]
    have hall : ∀ q ∈ store, (strLower q.name == strLower n) = false := by
      intro q hq
      rw [beq_eq_false_iff_ne]
      intro he
      have hqn : q.name = p.name := hciu q hq (he.trans hn)
      exact hany (List.any_eq_true.mpr ⟨q, hq, beq_iff_eq.mpr hqn⟩)
    exact find_append_single p n hn store hall

/-- C9: after `add_profile p` succeeds, the next `get_profile` for `p`'s name
under any letter case returns the newly written row, whether or not the
cache TTL has elapsed — the upsert evicts the (lower-cased) cache key, so
the stale cached entry cannot be served. Requires that no other stored
profile carries `p.name` in a different letter case (the store keys profile
names with exact-case uniqueness). -/
theorem C9_profile_cache_freshness (db : DBService) (p : Profile) (n : String)
    (now : Int)
    (hciu : ∀ q ∈ db.store, strLower q.name = strLower p.name → q.name = p.name)
    (hn : strLower n = strLower p.name) :
    (get_profile now (add_profile db p) n).1 = some p := by
  have hkey : cacheKey n = cacheKey p.name := by
    unfold cacheKey
    rw [hn]
  have hstore : store_get_profile (store_upsert_profile db.store p) n = some p :=
    store_get_after_upsert db.store p n hciu hn
  unfold get_profile add_profile clean_cache_if_needed
  by_cases hc : cache_ttl < now - db.last_cleanup
  · simp only [hc, if_true, if_pos hc]
    simp [List.lookup, hstore]
  · simp only [if_neg hc]
    simp [hkey, lookup_filter_out, hstore]

/-- C9 witness: the store holds profile "Foo" with old values and the cache
still holds its stale entry (TTL not elapsed at time 10); after upserting
the new "Foo" row, `get_profile` queried as "FOO" returns the new row. -/
theorem C9_profile_cache_freshness_witness :
    (∀ q ∈ exDB.store, strLower q.name = strLower exNewProfile.name →
      q.name = exNewProfile.name)
    ∧ strLower "FOO" = strLower exNewProfile.name
    ∧ (get_profile 10 (add_profile exDB exNewProfile) "FOO").1 = some exNewProfile :=
  ⟨by decide, by decide,
    C9_profile_cache_freshness exDB exNewProfile "FOO" 10 (by decide) (by decide)⟩

end VoucherTracker
